import Mathlib

/-
Shallow embedding of the NodeRedTime library (src/NodeRedTime.h,
src/NodeRedTime.cpp).

The C++ instance variables are declared `double` but, as the header
documents, only ever hold integer millisecond values; we model them with
`Nat`/`Int`.  `millis()` returns `unsigned long` (32-bit on the ESP
targets), so clock readings are naturals below 2^32 supplied by the
environment.  `time_t` is `uint32_t` per the header remark, so the
constructor arguments `recall_s` and `minEpoch_s` are naturals.

Each call to `serverTime` interacts with the network; the outcome of that
interaction (whether `http.begin` succeeded, the two `millis()` readings
taken around the GET, the HTTP status code, and the numeric value parsed
from the body by `toDouble`) is captured in a `FetchEnv` record passed as
an explicit argument.  The body value is modelled as an integer number of
milliseconds, matching the documented wire format.
-/

/-- Environment of a single `serverTime` call: the transport and clock
inputs the surrounding system supplies during that call. -/
structure FetchEnv where
  /-- result of `http.begin(client, _url)` -/
  beginOk : Bool
  /-- `millis()` reading taken just before `http.GET()` -/
  t0 : Nat
  /-- `millis()` reading taken just after `http.GET()` -/
  t1 : Nat
  /-- status code returned by `http.GET()` -/
  httpCode : Int
  /-- value parsed from the response body by `getString().toDouble()`,
  in integer milliseconds (possibly negative, e.g. a body of "-5") -/
  parsed : Int
  deriving DecidableEq, Repr

/-- The Arduino `HTTP_CODE_OK` constant. -/
def HTTP_CODE_OK : Int := 200

/-- Model of the `NodeRedTime` class: configuration fixed by the
constructor plus the two mutable synchronisation fields. -/
structure NodeRedTime where
  /-- `_url`, remembered verbatim -/
  url : String
  /-- `_recall_ms = 1000.0 * min(max(recall_s,60U),14400U)` -/
  recall_ms : Nat
  /-- `_minEpoch_ms = 1000.0 * minEpoch_s` -/
  minEpoch_ms : Nat
  /-- `_epochLastSync_ms`, sentinel 0 when never/no longer synchronised -/
  epochLastSync_ms : Int
  /-- `_uptimeLastSync_ms`, the `millis()`-midpoint of the last valid fetch -/
  uptimeLastSync_ms : Nat
  deriving DecidableEq, Repr

/-- The `NodeRedTime` constructor: clamps `recall_s` to 60..14400 seconds,
converts both second arguments to milliseconds, and leaves the two
synchronisation fields at their declared initial value 0. -/
def NodeRedTime.init (url : String) (recall_s : Nat := 3600)
    (minEpoch_s : Nat := 1262304000) : NodeRedTime :=
  { url := url
    recall_ms := 1000 * min (max recall_s 60) 14400
    minEpoch_ms := 1000 * minEpoch_s
    epochLastSync_ms := 0
    uptimeLastSync_ms := 0 }

/-- The local variable `serverTime_ms` as left by the request phase of
`serverTime`: the parsed body when `http.begin` succeeded and the GET
returned `HTTP_CODE_OK`, otherwise its initial value `0.0`. -/
def responseMs (env : FetchEnv) : Int :=
  if env.beginOk = true ∧ env.httpCode = HTTP_CODE_OK then env.parsed else 0

/-- The local variable `sync_ms` as left by the request phase of
`serverTime`: the midpoint `(1.0 * t0 + t1) / 2.0` of the two `millis()`
readings, truncated back to an unsigned integer on assignment, when
`http.begin` succeeded; otherwise its initial value `0`. -/
def midpointMs (env : FetchEnv) : Nat :=
  if env.beginOk = true then (env.t0 + env.t1) / 2 else 0

/-- `NodeRedTime::serverTime`.  Returns the updated instance together with
the value written through the `epoch` out-parameter and the boolean result.
On `serverTime_ms >= _minEpoch_ms` it records the synchronisation pair and
returns the reply truncated to whole seconds; otherwise it resets
`_epochLastSync_ms` to the sentinel 0 (leaving `_uptimeLastSync_ms`
untouched), writes the sentinel 0 to the caller and reports failure. -/
def NodeRedTime.serverTime (t : NodeRedTime) (env : FetchEnv) :
    NodeRedTime × Int × Bool :=
  if (t.minEpoch_ms : Int) ≤ responseMs env then
    ({ t with
        uptimeLastSync_ms := midpointMs env
        epochLastSync_ms := responseMs env },
      (responseMs env).tdiv 1000, true)
  else
    ({ t with epochLastSync_ms := 0 }, 0, false)

/-- Model of the C cast `(long)d` where `d` is a `double` holding an exact
integer value: in-range values truncate to themselves; out-of-range values
saturate to the nearest representable 32-bit bound, which is what the
software floating-point `double`→`int32` conversion of the ESP toolchains
does (ISO C++ leaves the out-of-range case undefined). -/
def toLong (x : Int) : Int :=
  max (-(2 ^ 31)) (min (2 ^ 31 - 1) x)

/-- The guard of the extrapolation branch of `NodeRedTime::syntheticTime`:
a valid synchronisation point exists, `now_ms` is strictly beyond it, and
the wrap-safe signed comparison says `_recall_ms` has not yet elapsed. -/
def usesCache (t : NodeRedTime) (now_ms : Nat) : Prop :=
  (t.minEpoch_ms : Int) ≤ t.epochLastSync_ms ∧
  (t.uptimeLastSync_ms : Int) < (now_ms : Int) ∧
  toLong ((now_ms : Int) - ((t.uptimeLastSync_ms : Int) + (t.recall_ms : Int))) < 0

instance (t : NodeRedTime) (now_ms : Nat) : Decidable (usesCache t now_ms) := by
  unfold usesCache
  exact inferInstance

/-- `NodeRedTime::syntheticTime`.  `now_ms` is the `millis()` reading taken
inside the call; `env` is the transport environment consumed only if the
call falls through to `serverTime`.  When the cached synchronisation point
is usable it returns the extrapolated epoch truncated to whole seconds
without touching state or network; otherwise it delegates to
`serverTime`. -/
def NodeRedTime.syntheticTime (t : NodeRedTime) (now_ms : Nat)
    (env : FetchEnv) : NodeRedTime × Int × Bool :=
  if usesCache t now_ms then
    (t, ((now_ms : Int) + t.epochLastSync_ms - (t.uptimeLastSync_ms : Int)).tdiv 1000,
      true)
  else
    t.serverTime env

/-- States of a `NodeRedTime` instance reachable from construction by any
sequence of `serverTime` and `syntheticTime` calls, each under an arbitrary
environment. -/
inductive Reachable (url : String) (recall_s minEpoch_s : Nat) : NodeRedTime → Prop
  | init : Reachable url recall_s minEpoch_s (NodeRedTime.init url recall_s minEpoch_s)
  | fetch {t : NodeRedTime} (env : FetchEnv) :
      Reachable url recall_s minEpoch_s t →
      Reachable url recall_s minEpoch_s (t.serverTime env).1
  | query {t : NodeRedTime} (now_ms : Nat) (env : FetchEnv) :
      Reachable url recall_s minEpoch_s t →
      Reachable url recall_s minEpoch_s (t.syntheticTime now_ms env).1

/-- The saturating cast is sign-faithful: the 32-bit test `(long)d < 0`
agrees with the mathematical test `d < 0`. -/
theorem toLong_lt_zero (x : Int) : toLong x < 0 ↔ x < 0 := by
  unfold toLong
  rcases le_total x (2 ^ 31 - 1) with h | h
  · rw [min_eq_right h]
    rcases le_total (-(2 ^ 31) : Int) x with h2 | h2
    · rw [max_eq_right h2]
    · rw [max_eq_left h2]
      omega
  · rw [min_eq_left h]
    norm_num
    omega

/-- A failed `serverTime` call leaves the instance with only
`epochLastSync_ms` reset to the sentinel. -/
theorem serverTime_fail_state (t : NodeRedTime) (env : FetchEnv)
    (h : (t.serverTime env).2.2 = false) :
    (t.serverTime env).1 = { t with epochLastSync_ms := 0 } := by
  unfold NodeRedTime.serverTime at h ⊢
  split at h
  · simp at h
  · split
    · simp_all
    · rfl

/-- Whatever the outcome, a `serverTime` call leaves `epochLastSync_ms`
either at the sentinel or at a value at least `minEpoch_ms`. -/
theorem serverTime_epoch_valid (t : NodeRedTime) (env : FetchEnv) :
    (t.serverTime env).1.epochLastSync_ms = 0 ∨
      ((t.serverTime env).1.minEpoch_ms : Int) ≤ (t.serverTime env).1.epochLastSync_ms := by
  unfold NodeRedTime.serverTime
  split
  · right
    simp_all
  · left
    rfl

/-- C1 fails as stated: on an instance constructed with `minEpoch_s = 0`,
a `serverTime` call that returns failure (body parses to -5) is immediately
followed by a `syntheticTime` call that takes the extrapolation branch and
returns success without invoking `serverTime` (the dead transport
environment would have made `serverTime` fail). -/
theorem poisonFailure_counterexample :
    ((NodeRedTime.init "u" 3600 0).serverTime ⟨true, 0, 0, 200, -5⟩).2.2 = false ∧
    ((NodeRedTime.init "u" 3600 0).serverTime ⟨true, 0, 0, 200, -5⟩).1
      = NodeRedTime.init "u" 3600 0 ∧
    usesCache (((NodeRedTime.init "u" 3600 0).serverTime ⟨true, 0, 0, 200, -5⟩).1) 1000 ∧
    (((NodeRedTime.init "u" 3600 0).serverTime ⟨true, 0, 0, 200, -5⟩).1).syntheticTime
        1000 ⟨false, 0, 0, 0, 0⟩
      = (NodeRedTime.init "u" 3600 0, 1, true) ∧
    (((NodeRedTime.init "u" 3600 0).serverTime ⟨true, 0, 0, 200, -5⟩).1).serverTime
        ⟨false, 0, 0, 0, 0⟩
      ≠ (NodeRedTime.init "u" 3600 0, 1, true) := by
  decide

/-- C1 (amended): for every instance whose configured `minEpoch_ms` is
positive, after any `serverTime` call that returns failure, the immediately
following `syntheticTime` call does not extrapolate from cached state but
behaves exactly as a fresh `serverTime` call. -/
theorem poisonFailure_refetch (t : NodeRedTime) (env env2 : FetchEnv)
    (now_ms : Nat) (hm : 0 < t.minEpoch_ms)
    (hf : (t.serverTime env).2.2 = false) :
    ((t.serverTime env).1).syntheticTime now_ms env2
      = ((t.serverTime env).1).serverTime env2 := by
  have h1 := serverTime_fail_state t env hf
  unfold NodeRedTime.syntheticTime
  rw [if_neg]
  rintro ⟨hc, -, -⟩
  rw [h1] at hc
  simp only [] at hc
  omega

/-- Witness for C1 (amended): a default-configured instance after a failed
fetch delegates its next `syntheticTime` call to `serverTime`. -/
theorem poisonFailure_refetch_witness :
    (((NodeRedTime.init "u" 3600 1262304000).serverTime ⟨false, 0, 0, 0, 0⟩).1).syntheticTime
        5 ⟨false, 0, 0, 0, 0⟩
      = (((NodeRedTime.init "u" 3600 1262304000).serverTime ⟨false, 0, 0, 0, 0⟩).1).serverTime
        ⟨false, 0, 0, 0, 0⟩ :=
  poisonFailure_refetch (NodeRedTime.init "u" 3600 1262304000) ⟨false, 0, 0, 0, 0⟩
    ⟨false, 0, 0, 0, 0⟩ 5 (by decide) (by decide)

/-- C2: whenever `syntheticTime` takes the extrapolation branch, it returns
the extrapolated value with no state change and no fetch, and the local
clock reading has advanced by strictly less than `recall_ms` since the
synchronisation point it extrapolates from. -/
theorem extrapolation_elapsed_lt_recall (t : NodeRedTime) (now_ms : Nat)
    (env : FetchEnv) (h : usesCache t now_ms) :
    t.syntheticTime now_ms env
      = (t, ((now_ms : Int) + t.epochLastSync_ms - (t.uptimeLastSync_ms : Int)).tdiv 1000,
          true) ∧
    now_ms - t.uptimeLastSync_ms < t.recall_ms := by
  obtain ⟨h1, h2, h3⟩ := h
  constructor
  · unfold NodeRedTime.syntheticTime
    rw [if_pos ⟨h1, h2, h3⟩]
  · rw [toLong_lt_zero] at h3
    omega

/-- Witness for C2: a synchronised instance queried 100 ms after its
synchronisation point extrapolates and is within the resync bound. -/
theorem extrapolation_elapsed_lt_recall_witness :
    (⟨"u", 3600000, 1262304000000, 1700000000000, 50⟩ : NodeRedTime).syntheticTime
        150 ⟨false, 0, 0, 0, 0⟩
      = (⟨"u", 3600000, 1262304000000, 1700000000000, 50⟩, 1700000000, true) ∧
    (150 : Nat) - 50 < 3600000 := by
  have h := extrapolation_elapsed_lt_recall
    ⟨"u", 3600000, 1262304000000, 1700000000000, 50⟩ 150 ⟨false, 0, 0, 0, 0⟩ (by decide)
  exact ⟨by rw [h.1]; decide, h.2⟩

/-- C3: on a synchronised instance, if the `millis()` reading taken inside
`syntheticTime` is not strictly greater than the recorded synchronisation
reading (the counter wrapped or moved backwards), the call does not
extrapolate but behaves exactly as a `serverTime` call. -/
theorem wrap_forces_refetch (t : NodeRedTime) (now_ms : Nat) (env : FetchEnv)
    (_hsync : (t.minEpoch_ms : Int) ≤ t.epochLastSync_ms)
    (hw : now_ms ≤ t.uptimeLastSync_ms) :
    t.syntheticTime now_ms env = t.serverTime env := by
  unfold NodeRedTime.syntheticTime
  rw [if_neg]
  rintro ⟨-, h2, -⟩
  omega

/-- Witness for C3: a synchronised instance whose synchronisation reading
was late in the counter cycle delegates to `serverTime` after the counter
wraps back to a small reading. -/
theorem wrap_forces_refetch_witness :
    (⟨"u", 3600000, 1262304000000, 1700000000000, 4000000000⟩ : NodeRedTime).syntheticTime
        5 ⟨false, 0, 0, 0, 0⟩
      = (⟨"u", 3600000, 1262304000000, 1700000000000, 4000000000⟩ : NodeRedTime).serverTime
        ⟨false, 0, 0, 0, 0⟩ :=
  wrap_forces_refetch ⟨"u", 3600000, 1262304000000, 1700000000000, 4000000000⟩ 5
    ⟨false, 0, 0, 0, 0⟩ (by decide) (by decide)

/-- C4: the resync boundary is strict.  On any instance, a `syntheticTime`
call whose clock reading is exactly `recall_ms` past the synchronisation
point behaves exactly as a `serverTime` call (tie goes to refetch); on a
synchronised instance, every reading strictly between the synchronisation
point and that boundary takes the extrapolation branch. -/
theorem resync_boundary_strict (t : NodeRedTime) (env : FetchEnv) :
    t.syntheticTime (t.uptimeLastSync_ms + t.recall_ms) env = t.serverTime env ∧
    (∀ now_ms : Nat, (t.minEpoch_ms : Int) ≤ t.epochLastSync_ms →
      t.uptimeLastSync_ms < now_ms → now_ms < t.uptimeLastSync_ms + t.recall_ms →
      usesCache t now_ms) := by
  constructor
  · unfold NodeRedTime.syntheticTime
    rw [if_neg]
    rintro ⟨-, -, h3⟩
    rw [toLong_lt_zero] at h3
    push_cast at h3
    omega
  · intro now_ms h1 h2 h3
    refine ⟨h1, by exact_mod_cast h2, ?_⟩
    rw [toLong_lt_zero]
    omega

/-- Witness for C4: on a synchronised instance with `recall_ms = 3600000`
and synchronisation reading 50, the call at reading 3600050 (elapsed
exactly `recall_ms`) delegates to `serverTime`, and the call at reading
150 extrapolates. -/
theorem resync_boundary_strict_witness :
    (⟨"u", 3600000, 1262304000000, 1700000000000, 50⟩ : NodeRedTime).syntheticTime
        3600050 ⟨false, 0, 0, 0, 0⟩
      = (⟨"u", 3600000, 1262304000000, 1700000000000, 50⟩ : NodeRedTime).serverTime
        ⟨false, 0, 0, 0, 0⟩ ∧
    usesCache (⟨"u", 3600000, 1262304000000, 1700000000000, 50⟩ : NodeRedTime) 150 :=
  ⟨(resync_boundary_strict ⟨"u", 3600000, 1262304000000, 1700000000000, 50⟩
      ⟨false, 0, 0, 0, 0⟩).1,
   (resync_boundary_strict ⟨"u", 3600000, 1262304000000, 1700000000000, 50⟩
      ⟨false, 0, 0, 0, 0⟩).2 150 (by decide) (by decide) (by decide)⟩

/-- C5 fails on the code: after a successful fetch recorded at clock
midpoint 10, a failed fetch resets `epochLastSync_ms` to the sentinel but
leaves `uptimeLastSync_ms` at 10 instead of clearing it, contradicting the
documented pairing of the two fields. -/
theorem failure_keeps_uptimeLastSync :
    (((NodeRedTime.init "u" 3600 1262304000).serverTime
        ⟨true, 10, 10, 200, 1700000000000⟩).1.serverTime ⟨false, 0, 0, 0, 0⟩).2.2
      = false ∧
    (((NodeRedTime.init "u" 3600 1262304000).serverTime
        ⟨true, 10, 10, 200, 1700000000000⟩).1.serverTime ⟨false, 0, 0, 0, 0⟩).1.epochLastSync_ms
      = 0 ∧
    (((NodeRedTime.init "u" 3600 1262304000).serverTime
        ⟨true, 10, 10, 200, 1700000000000⟩).1.serverTime ⟨false, 0, 0, 0, 0⟩).1.uptimeLastSync_ms
      = 10 := by
  decide

/-- C6: whenever `serverTime` or `syntheticTime` reports failure, the value
written through the `epoch` out-parameter is the sentinel 0. -/
theorem failure_epoch_zero (t : NodeRedTime) (now_ms : Nat) (env : FetchEnv) :
    ((t.serverTime env).2.2 = false → (t.serverTime env).2.1 = 0) ∧
    ((t.syntheticTime now_ms env).2.2 = false → (t.syntheticTime now_ms env).2.1 = 0) := by
  constructor
  · unfold NodeRedTime.serverTime
    split <;> simp
  · unfold NodeRedTime.syntheticTime NodeRedTime.serverTime
    split
    · simp
    · split <;> simp

/-- Witness for C6: a fetch over a dead transport on a default-configured
instance fails and writes the sentinel 0. -/
theorem failure_epoch_zero_witness :
    ((NodeRedTime.init "u" 3600 1262304000).serverTime ⟨false, 0, 0, 0, 0⟩).2.1 = 0 ∧
    ((NodeRedTime.init "u" 3600 1262304000).syntheticTime 7 ⟨false, 0, 0, 0, 0⟩).2.1 = 0 :=
  ⟨(failure_epoch_zero (NodeRedTime.init "u" 3600 1262304000) 7 ⟨false, 0, 0, 0, 0⟩).1
      (by decide),
   (failure_epoch_zero (NodeRedTime.init "u" 3600 1262304000) 7 ⟨false, 0, 0, 0, 0⟩).2
      (by decide)⟩

/-- C7: in every reachable state of an instance, `epochLastSync_ms` is
either the sentinel 0 or at least the configured `minEpoch_ms`. -/
theorem reachable_epoch_valid {url : String} {recall_s minEpoch_s : Nat}
    {t : NodeRedTime} (h : Reachable url recall_s minEpoch_s t) :
    t.epochLastSync_ms = 0 ∨ (t.minEpoch_ms : Int) ≤ t.epochLastSync_ms := by
  induction h with
  | init => left; rfl
  | fetch env _ _ => exact serverTime_epoch_valid _ env
  | query now_ms env _ ih =>
      unfold NodeRedTime.syntheticTime
      split
      · exact ih
      · exact serverTime_epoch_valid _ env

/-- Witness for C7: the invariant at the initial state of a
default-configured instance. -/
theorem reachable_epoch_valid_witness :
    (NodeRedTime.init "u" 3600 1262304000).epochLastSync_ms = 0 ∨
      ((NodeRedTime.init "u" 3600 1262304000).minEpoch_ms : Int)
        ≤ (NodeRedTime.init "u" 3600 1262304000).epochLastSync_ms :=
  reachable_epoch_valid Reachable.init

/-- C8: the constructor clamps the configured resync interval to
60..14400 seconds: 0 s yields 60000 ms, 999999 s yields 14400000 ms, the
effective interval always lies in [60000 ms, 14400000 ms], and an in-range
value passes through unchanged. -/
theorem init_recall_clamped (url : String) (recall_s minEpoch_s : Nat) :
    (NodeRedTime.init url 0 minEpoch_s).recall_ms = 60000 ∧
    (NodeRedTime.init url 999999 minEpoch_s).recall_ms = 14400000 ∧
    60000 ≤ (NodeRedTime.init url recall_s minEpoch_s).recall_ms ∧
    (NodeRedTime.init url recall_s minEpoch_s).recall_ms ≤ 14400000 ∧
    (60 ≤ recall_s → recall_s ≤ 14400 →
      (NodeRedTime.init url recall_s minEpoch_s).recall_ms = 1000 * recall_s) := by
  unfold NodeRedTime.init
  refine ⟨rfl, rfl, ?_, ?_, ?_⟩
  · simp only []
    rcases le_total recall_s 60 with h | h
    · rw [max_eq_right h]
      simp
    · rw [max_eq_left h]
      rcases le_total recall_s 14400 with h2 | h2
      · rw [min_eq_left h2]
        omega
      · rw [min_eq_right h2]
        omega
  · simp only []
    rcases le_total (max recall_s 60) 14400 with h | h
    · rw [min_eq_left h]
      omega
    · rw [min_eq_right h]
  · intro h1 h2
    simp only []
    rw [max_eq_left h1, min_eq_left h2]

/-- Witness for C8: the default 3600 s interval is in range and passes
through as 3600000 ms. -/
theorem init_recall_clamped_witness :
    (NodeRedTime.init "u" 3600 1262304000).recall_ms = 1000 * 3600 :=
  (init_recall_clamped "u" 3600 1262304000).2.2.2.2 (by decide) (by decide)

/-- C10: on an instance constructed with `minEpoch_s = 0` that has never
synchronised, the sentinel test passes (0 >= 0), so any clock reading
strictly between 0 and `recall_ms` makes `syntheticTime` return success
with the device uptime in whole seconds, with no state change and no
fetch. -/
theorem zero_minEpoch_extrapolates (url : String) (recall_s now_ms : Nat)
    (env : FetchEnv) (h1 : 0 < now_ms)
    (h2 : now_ms < (NodeRedTime.init url recall_s 0).recall_ms) :
    (NodeRedTime.init url recall_s 0).syntheticTime now_ms env
      = (NodeRedTime.init url recall_s 0, (now_ms : Int).tdiv 1000, true) := by
  unfold NodeRedTime.init at h2 ⊢
  unfold NodeRedTime.syntheticTime
  rw [if_pos]
  · simp
  · simp only [] at h2
    refine ⟨by simp, by exact_mod_cast h1, ?_⟩
    rw [toLong_lt_zero]
    simp only []
    omega

/-- Witness for C10: a never-synchronised zero-`minEpoch` instance queried
at reading 5678 returns 5 seconds of uptime without fetching. -/
theorem zero_minEpoch_extrapolates_witness :
    (NodeRedTime.init "u" 3600 0).syntheticTime 5678 ⟨false, 0, 0, 0, 0⟩
      = (NodeRedTime.init "u" 3600 0, Int.tdiv 5678 1000, true) :=
  zero_minEpoch_extrapolates "u" 3600 5678 ⟨false, 0, 0, 0, 0⟩ (by decide) (by decide)
